import Mathlib

/-!
Shallow embedding of the booking core of the `alx_travel_app` listings
application (`listings/models.py`, `listings/serializers.py`,
`listings/views.py`), together with theorems settling the frozen claims
about it.

Conventions of the embedding:
* Users are identified by their numeric id (`Nat`); a foreign key is the
  id of the referenced row.
* Calendar dates are modelled as day ordinals (`Int`); Python's
  `(check_out - check_in).days` is then `check_out - check_in`.
* Django `DecimalField` amounts are modelled as exact rationals (`ℚ`);
  decimal-by-integer multiplication is exact in both.
* Python float true division of two integers (in `average_rating`) is
  modelled by `floatDivNat`: the exact rational value of the correctly
  rounded (nearest, ties to even) binary64 quotient.
* A nullable / not-yet-set column is an `Option`; `Booking.save`'s
  truthiness test `if self.check_in and self.check_out and self.listing`
  is the corresponding `match` on the three options.
* The persistent store of a model class is a `List` of its rows; the SQL
  join `listing__host` is a lookup of the booking's listing id in that
  list.
-/

namespace AlxTravel

/-- `Booking.STATUS_CHOICES` from `models.py`. -/
inductive Status where
  | pending
  | confirmed
  | cancelled
  | completed
deriving DecidableEq, Repr

/-- The stored string of a status, as persisted in the `status` column. -/
def Status.toStr : Status → String
  | .pending => "pending"
  | .confirmed => "confirmed"
  | .cancelled => "cancelled"
  | .completed => "completed"

/-- The fields of `Listing` (`models.py`) that the booking core reads.
`host` is the id of the owning user. -/
structure Listing where
  id : Nat
  title : String
  price_per_night : ℚ
  max_guests : Nat
  is_available : Bool
  host : Nat
deriving DecidableEq, Repr

/-- The fields of `Review` (`models.py`) that the rating aggregator reads.
`rating` is a positive integer (1–5 by validators). -/
structure Review where
  listing : Nat
  booking : Nat
  guest : Nat
  rating : Nat
deriving DecidableEq, Repr

/-- The fields of `Booking` (`models.py`). `total_price` is `none` while the
column has not been assigned (the model declares it without a default).
`check_in` / `check_out` are `none` while unset, matching the truthiness
guard in `Booking.save`. -/
structure Booking where
  id : Nat
  listing : Nat
  guest : Nat
  check_in : Option Int
  check_out : Option Int
  guests_count : Nat
  total_price : Option ℚ
  status : Status
  special_requests : String
deriving DecidableEq, Repr

/-- Round `n / d` (for `d ≠ 0`) to the nearest natural number, ties to the
even one — the rounding IEEE 754 prescribes for the significand. -/
def roundHalfEvenNat (n d : Nat) : Nat :=
  let m := n / d
  let r := n % d
  if 2 * r < d then m
  else if d < 2 * r then m + 1
  else if m % 2 = 0 then m else m + 1

/-- For `b ≤ a`, the exponent `e` with `b * 2 ^ e ≤ a < b * 2 ^ (e + 1)`
(the binade of `a / b ≥ 1`), by fueled doubling of `b`. The call site's
fuel `a` exceeds the at most `log2 a` doublings ever needed, so the fuel
never runs out. -/
def upExp : Nat → Nat → Nat → Nat
  | 0, _, _ => 0
  | fuel + 1, a, b => if b * 2 ≤ a then upExp fuel a (b * 2) + 1 else 0

/-- For `0 < a < b`, the least `j ≥ 1` with `b ≤ a * 2 ^ j` (so the binade
of `a / b < 1` is `-j`), by fueled doubling of `a`. The call site's fuel
`b` exceeds the at most `log2 b + 1` doublings ever needed. -/
def downExp : Nat → Nat → Nat → Nat
  | 0, _, _ => 1
  | fuel + 1, a, b => if b ≤ a * 2 then 1 else downExp fuel (a * 2) b + 1

/-- Modelled from CPython's `int / int` true division (`long_true_divide`),
which this code reaches through `sum(...) / len(reviews)`: the binary64
double correctly rounded — to nearest, ties to even — from the exact
quotient `a / b`, returned as the exact rational value of that double.
The 53-bit significand is `roundHalfEvenNat` of the quotient scaled into
the binade found by `upExp` / `downExp`; `a = 0` gives `0.0`, and `b = 0`
(`ZeroDivisionError` in Python) is unreachable at the call site. Overflow
to infinity and subnormal underflow are not modelled: rating means lie in
`[1, 5]` (ratings are validated 1–5), deep inside the normal range. -/
def floatDivNat (a b : Nat) : ℚ :=
  if a = 0 ∨ b = 0 then 0
  else if b ≤ a then
    let e := upExp a a b
    if e ≤ 52 then
      mkRat (roundHalfEvenNat (a * 2 ^ (52 - e)) b) (2 ^ (52 - e))
    else
      mkRat (roundHalfEvenNat a (b * 2 ^ (e - 52)) * 2 ^ (e - 52)) 1
  else
    mkRat (roundHalfEvenNat (a * 2 ^ (52 + downExp b a b)) b)
      (2 ^ (52 + downExp b a b))

/-- `Listing.average_rating` (`models.py` lines 41–46): the reviews attached
to the listing via the `reviews` related name, then
`sum(review.rating for review in reviews) / len(reviews)` when that set is
non-empty (queryset truthiness), else `0`. The sum and length are exact
Python integers; the single `/` is CPython float true division — the
correctly rounded binary64 quotient `floatDivNat`, not the exact mean. -/
def Listing.average_rating (l : Listing) (reviews : List Review) : ℚ :=
  let rs := reviews.filter (fun r => r.listing == l.id)
  if rs ≠ [] then floatDivNat ((rs.map Review.rating).sum) rs.length
  else 0

/-- `Booking.save` (`models.py` lines 74–80): when both dates and the listing
are present and the night count is positive, `total_price` is overwritten
with `listing.price_per_night * nights`; otherwise the row is persisted
unchanged. The resolved listing object is passed explicitly. -/
def Booking.save (b : Booking) (listing : Option Listing) : Booking :=
  match b.check_in, b.check_out, listing with
  | some ci, some co, some l =>
    let nights : Int := co - ci
    if nights > 0 then
      { b with total_price := some (l.price_per_night * (nights : ℚ)) }
    else b
  | _, _, _ => b

/-- The cross-field validation failures of `BookingSerializer.validate`
(`serializers.py` lines 55–72), in source order. -/
inductive ValidationError where
  | dateRange
  | capacity
  | unavailable
deriving DecidableEq, Repr

/-- `BookingSerializer.validate` (`serializers.py` lines 55–72): rejects
`check_in >= check_out`, then `guests_count > listing.max_guests`, then an
unavailable listing. The resolved `listing` (from `listing_id`) is passed
in as the serializer's `data['listing']`. -/
def BookingSerializer.validate (listing : Listing) (check_in check_out : Int)
    (guests_count : Nat) : Except ValidationError Unit :=
  if check_in ≥ check_out then .error .dateRange
  else if guests_count > listing.max_guests then .error .capacity
  else if !listing.is_available then .error .unavailable
  else .ok ()

/-- `BookingCreateSerializer` (`serializers.py` lines 75–81): a bare
`ModelSerializer` over `listing`, `check_in`, `check_out`, `guests_count`,
`special_requests` with NO `validate` override, so it performs no
cross-field check; field-level checks (an existing listing, well-formed
dates, a non-negative count) are discharged by the embedding's types. -/
def BookingCreateSerializer.validate (_listing : Listing)
    (_check_in _check_out : Int) (_guests_count : Nat) :
    Except ValidationError Unit :=
  .ok ()

/-- Which serializer class a viewset action resolves to. -/
inductive SerializerKind where
  | booking
  | bookingCreate
deriving DecidableEq, Repr

/-- The DRF actions that reach `BookingViewSet.get_serializer_class`;
`patch` stands for the source's partial-update action. -/
inductive DrfAction where
  | list
  | retrieve
  | create
  | update
  | patch
  | destroy
deriving DecidableEq, Repr

/-- `BookingViewSet.get_serializer_class` (`views.py` lines 160–166):
creation and the two update actions use `BookingCreateSerializer`;
everything else uses `BookingSerializer`. -/
def BookingViewSet.get_serializer_class (a : DrfAction) : SerializerKind :=
  match a with
  | .create | .update | .patch => .bookingCreate
  | _ => .booking

/-- Outcome of a create request once it reaches the booking viewset:
a serializer validation error (HTTP 400), a database integrity error when
the model save leaves the NOT NULL `total_price` column unset (unhandled,
HTTP 500), or a persisted booking. -/
inductive CreateOutcome where
  | validationError (e : ValidationError)
  | integrityError
  | created (b : Booking)
deriving DecidableEq, Repr

/-- Whether a create outcome persisted a booking. -/
def CreateOutcome.isCreated : CreateOutcome → Bool
  | .created _ => true
  | _ => false

/-- The booking persisted by a create outcome, when there is one. -/
def CreateOutcome.createdBooking : CreateOutcome → Option Booking
  | .created b => some b
  | _ => none

/-- The create path of `BookingViewSet` (`views.py` lines 160–172 and
`serializers.py`): the serializer selected by
`get_serializer_class` for the `create` action validates the input;
`perform_create` saves with `guest=request.user`; the new row starts with
the model defaults (`status='pending'`, `total_price` unset) and goes
through `Booking.save`; persisting a row whose NOT NULL `total_price`
column is still unset raises a database integrity error. -/
def BookingViewSet.create (actor : Nat) (listing : Listing)
    (check_in check_out : Int) (guests_count : Nat)
    (special_requests : String) : CreateOutcome :=
  let validated :=
    match BookingViewSet.get_serializer_class .create with
    | .bookingCreate =>
      BookingCreateSerializer.validate listing check_in check_out guests_count
    | .booking =>
      BookingSerializer.validate listing check_in check_out guests_count
  match validated with
  | .error e => .validationError e
  | .ok () =>
    let b : Booking :=
      { id := 0, listing := listing.id, guest := actor,
        check_in := some check_in, check_out := some check_out,
        guests_count := guests_count, total_price := none,
        status := .pending, special_requests := special_requests }
    let saved := Booking.save b (some listing)
    match saved.total_price with
    | none => .integrityError
    | some _ => .created saved

/-- Response of the `cancel` / `confirm` actions: a 403, a 400, or a 200
carrying the updated booking. -/
inductive ActionResult where
  | forbidden (detail : String)
  | badRequest (detail : String)
  | ok (b : Booking)
deriving DecidableEq, Repr

/-- The updated booking of a successful action result, when there is one. -/
def ActionResult.newBooking : ActionResult → Option Booking
  | .ok b => some b
  | _ => none

/-- `BookingViewSet.cancel` (`views.py` lines 174–197): 403 unless the actor
is the booking's guest, 400 if the status is already `cancelled`, else set
the status to `cancelled` and save (the save runs `Booking.save` on the
booking's listing). -/
def BookingViewSet.cancel (booking : Booking) (listing : Listing)
    (actor : Nat) : ActionResult :=
  if booking.guest ≠ actor then
    .forbidden "You can only cancel your own bookings."
  else if booking.status = Status.cancelled then
    .badRequest "Booking is already cancelled."
  else
    .ok (Booking.save { booking with status := Status.cancelled } (some listing))

/-- `BookingViewSet.confirm` (`views.py` lines 199–222): 403 unless the actor
is the listing's host, 400 unless the status is `pending`, else set the
status to `confirmed` and save. -/
def BookingViewSet.confirm (booking : Booking) (listing : Listing)
    (actor : Nat) : ActionResult :=
  if listing.host ≠ actor then
    .forbidden "Only the host can confirm bookings."
  else if booking.status ≠ Status.pending then
    .badRequest "Only pending bookings can be confirmed."
  else
    .ok (Booking.save { booking with status := Status.confirmed } (some listing))

/-- The `listing__host` join: the host id of the listing a booking
references, when that listing exists in the store. -/
def listingHost (listings : List Listing) (lid : Nat) : Option Nat :=
  (listings.find? (fun l => l.id == lid)).map Listing.host

/-- The status query-parameter filter of `BookingViewSet.get_queryset`
(`views.py` lines 149–151): applied only when the parameter is present and
truthy (non-empty). -/
def applyStatusFilter (qs : List Booking) (p : Option String) : List Booking :=
  match p with
  | none => qs
  | some s => if s = "" then qs else qs.filter (fun b => b.status.toStr == s)

/-- The upcoming query-parameter filter of `BookingViewSet.get_queryset`
(`views.py` lines 154–156): applied when the parameter is truthy and its
lowercase form is `"true"`; keeps bookings with `check_in >= today`. -/
def applyUpcomingFilter (qs : List Booking) (p : Option String)
    (today : Int) : List Booking :=
  match p with
  | none => qs
  | some s =>
    if s = "" then qs
    else if s.toLower = "true" then
      qs.filter (fun b =>
        match b.check_in with
        | some ci => today ≤ ci
        | none => false)
    else qs

/-- `BookingViewSet.get_queryset` (`views.py` lines 137–158): the bookings
where the requesting user is the guest or the host of the referenced
listing (`Q(guest=user) | Q(listing__host=user)`), then the optional
status and upcoming filters. -/
def BookingViewSet.get_queryset (bookings : List Booking)
    (listings : List Listing) (user : Nat)
    (statusParam upcomingParam : Option String) (today : Int) : List Booking :=
  let base := bookings.filter
    (fun b => b.guest == user || listingHost listings b.listing == some user)
  applyUpcomingFilter (applyStatusFilter base statusParam) upcomingParam today

/-- Exact arithmetic mean of a list of rationals, written from the spec's
words ("arithmetic mean of all attached reviews' rating"); on the empty
list the quotient is `0` by the convention `x / 0 = 0` of `ℚ`. -/
def arithMean (xs : List ℚ) : ℚ :=
  xs.sum / (xs.length : ℚ)

/-! Concrete rows used by witnesses and counterexamples. User 1 hosts the
sample listing, user 2 is the guest on its bookings, user 3 is unrelated. -/

/-- The spec's example listing: `price_per_night=100.00`, `max_guests=4`,
available, hosted by user 1. -/
def sampleListing : Listing :=
  { id := 10, title := "Cabin", price_per_night := 100, max_guests := 4,
    is_available := true, host := 1 }

/-- The sample listing with `is_available` switched off. -/
def unavailableListing : Listing :=
  { id := 11, title := "Closed cabin", price_per_night := 100, max_guests := 4,
    is_available := false, host := 1 }

/-- A pending three-night booking of the sample listing by guest 2. -/
def pendingBooking : Booking :=
  { id := 20, listing := 10, guest := 2, check_in := some 0,
    check_out := some 3, guests_count := 2, total_price := some 300,
    status := .pending, special_requests := "" }

/-- The same booking after completion of the stay. -/
def completedBooking : Booking :=
  { pendingBooking with id := 21, status := .completed }

/-- A pending booking carrying a client-supplied `total_price` of `999`
that the model save must overwrite. -/
def clientPricedBooking : Booking :=
  { pendingBooking with id := 22, total_price := some 999 }

/-- The sample listing after its host raised the price to `150.00`. -/
def repricedListing : Listing :=
  { sampleListing with price_per_night := 150 }

/-- A booking of the sample listing priced at the original `100.00` rate,
used to observe repricing on cancel / confirm. -/
def stalePricedBooking : Booking :=
  { pendingBooking with id := 23 }

/-- The pending booking after the guest cancelled it. -/
def cancelledBooking : Booking :=
  { pendingBooking with id := 25, status := .cancelled }

/-- Two five- and four-star reviews of the sample listing; their mean 9/2
is a dyadic rational, hence exactly representable as a double. -/
def demoReviews : List Review :=
  [{ listing := 10, booking := 20, guest := 2, rating := 5 },
   { listing := 10, booking := 21, guest := 3, rating := 4 }]

/-- Reviews rated 5, 4 and 4: their mean 13/3 is not a dyadic rational, so
no double equals it. -/
def threeReviews : List Review :=
  [{ listing := 10, booking := 20, guest := 2, rating := 5 },
   { listing := 10, booking := 21, guest := 3, rating := 4 },
   { listing := 10, booking := 22, guest := 4, rating := 4 }]

/-- A booking by the unrelated user 3 on an absent listing 99. -/
def foreignBooking : Booking :=
  { id := 24, listing := 99, guest := 3, check_in := some 5,
    check_out := some 7, guests_count := 1, total_price := some 200,
    status := .pending, special_requests := "" }

/-- A two-booking store: one visible to user 2, one foreign to them. -/
def demoBookings : List Booking :=
  [pendingBooking, foreignBooking]

/-- A one-listing store holding the sample listing. -/
def demoListings : List Listing :=
  [sampleListing]

/-! ### Helper lemmas -/

/-- `Booking.save` never changes any field except `total_price`. -/
theorem Booking.save_status (b : Booking) (l : Option Listing) :
    (Booking.save b l).status = b.status := by
  unfold Booking.save
  split
  · dsimp only
    split <;> rfl
  · rfl

/-- On success, `cancel` returns exactly the saved cancelled booking. -/
theorem cancel_ok_iff (b : Booking) (l : Listing) (a : Nat) (b' : Booking) :
    BookingViewSet.cancel b l a = ActionResult.ok b' ↔
      (b.guest = a ∧ b.status ≠ Status.cancelled ∧
        b' = Booking.save { b with status := Status.cancelled } (some l)) := by
  unfold BookingViewSet.cancel
  split
  · rename_i hg
    constructor
    · intro h; cases h
    · rintro ⟨h, -, -⟩; exact absurd h hg
  · rename_i hg
    rw [not_not] at hg
    split
    · rename_i hs
      constructor
      · intro h; cases h
      · rintro ⟨-, hns, -⟩; exact absurd hs hns
    · rename_i hs
      constructor
      · intro h; injection h with h; exact ⟨hg, hs, h.symm⟩
      · rintro ⟨-, -, rfl⟩; rfl

/-- On success, `confirm` returns exactly the saved confirmed booking. -/
theorem confirm_ok_iff (b : Booking) (l : Listing) (a : Nat) (b' : Booking) :
    BookingViewSet.confirm b l a = ActionResult.ok b' ↔
      (l.host = a ∧ b.status = Status.pending ∧
        b' = Booking.save { b with status := Status.confirmed } (some l)) := by
  unfold BookingViewSet.confirm
  split
  · rename_i hh
    constructor
    · intro h; cases h
    · rintro ⟨h, -, -⟩; exact absurd h hh
  · rename_i hh
    rw [not_not] at hh
    split
    · rename_i hs
      constructor
      · intro h; cases h
      · rintro ⟨-, hp, -⟩; exact absurd hp hs
    · rename_i hs
      rw [not_not] at hs
      constructor
      · intro h; injection h with h; exact ⟨hh, hs, h.symm⟩
      · rintro ⟨-, -, rfl⟩; rfl

/-- The pricing computation inside `Booking.save`: with both dates present
and a positive night count, `total_price` is overwritten with
`price_per_night * nights`, whatever it held before. -/
theorem Booking.save_total_price (b : Booking) (l : Listing) (ci co : Int)
    (h1 : b.check_in = some ci) (h2 : b.check_out = some co)
    (hpos : 0 < co - ci) :
    (Booking.save b (some l)).total_price
      = some (l.price_per_night * ((co - ci : Int) : ℚ)) := by
  unfold Booking.save
  rw [h1, h2]
  dsimp only
  rw [if_pos hpos]

/-- Membership survives removing the status filter. -/
theorem mem_applyStatusFilter {qs : List Booking} {p : Option String}
    {b : Booking} (h : b ∈ applyStatusFilter qs p) : b ∈ qs := by
  cases p with
  | none => exact h
  | some s =>
    by_cases hs : s = ""
    · simpa [applyStatusFilter, hs] using h
    · simp only [applyStatusFilter, if_neg hs] at h
      exact List.mem_of_mem_filter h

/-- Membership survives removing the upcoming filter. -/
theorem mem_applyUpcomingFilter {qs : List Booking} {p : Option String}
    {today : Int} {b : Booking}
    (h : b ∈ applyUpcomingFilter qs p today) : b ∈ qs := by
  cases p with
  | none => exact h
  | some s =>
    by_cases hs : s = ""
    · simpa [applyUpcomingFilter, hs] using h
    · by_cases ht : s.toLower = "true"
      · simp only [applyUpcomingFilter, if_neg hs, if_pos ht] at h
        exact List.mem_of_mem_filter h
      · simpa [applyUpcomingFilter, hs, ht] using h

/-! ### Claims -/

/-- C1: for every booking saved with a listing and both dates present, when
the whole-day count `check_out - check_in` is positive, the saved booking's
`total_price` equals `listing.price_per_night` multiplied by that day
count; the recomputation happens on every save, regardless of any
client-supplied `total_price` (the statement quantifies over every prior
`total_price` of `b`). -/
theorem save_recomputes_total_price (b : Booking) (l : Listing) (ci co : Int)
    (h1 : b.check_in = some ci) (h2 : b.check_out = some co)
    (hpos : 0 < co - ci) :
    (Booking.save b (some l)).total_price
      = some (l.price_per_night * ((co - ci : Int) : ℚ)) :=
  Booking.save_total_price b l ci co h1 h2 hpos

/-- Witness for C1: a booking carrying a client-supplied total price of 999
is saved against the 100-per-night sample listing over three nights, and
comes out priced 300. -/
theorem save_recomputes_total_price_witness :
    clientPricedBooking.total_price = some 999 ∧
    (Booking.save clientPricedBooking (some sampleListing)).total_price
      = some 300 := by
  refine ⟨rfl, ?_⟩
  have h := save_recomputes_total_price clientPricedBooking sampleListing 0 3
    rfl rfl (by norm_num)
  rw [h]
  norm_num [sampleListing]

/-- C2 is false of the code: the create action resolves to
`BookingCreateSerializer`, which has no cross-field `validate`, so a
request with `check_in = check_out` (and likewise `check_in > check_out`)
is NOT rejected with a validation error — it sails through validation and
dies later on the unset NOT NULL `total_price` column, while the date check
the claim describes lives only in `BookingSerializer.validate`, which the
create path never runs. -/
theorem create_equal_dates_bug :
    BookingViewSet.get_serializer_class DrfAction.create
      = SerializerKind.bookingCreate ∧
    BookingViewSet.create 2 sampleListing 5 5 2 ""
      = CreateOutcome.integrityError ∧
    BookingViewSet.create 2 sampleListing 7 5 2 ""
      = CreateOutcome.integrityError ∧
    BookingSerializer.validate sampleListing 5 5 2
      = Except.error ValidationError.dateRange :=
  ⟨rfl, rfl, rfl, rfl⟩

/-- C4 is false of the code: a create request with `guests_count = 5`
against the `max_guests = 4` sample listing is persisted (status pending,
priced 300), because the capacity check lives only in
`BookingSerializer.validate`, which the create path never runs. -/
theorem create_over_capacity_bug :
    (BookingViewSet.create 2 sampleListing 0 3 5 "").isCreated = true ∧
    (BookingViewSet.create 2 sampleListing 0 3 5 "").createdBooking.map
        Booking.guests_count = some 5 ∧
    BookingSerializer.validate sampleListing 0 3 5
      = Except.error ValidationError.capacity :=
  ⟨rfl, rfl, rfl⟩

/-- C5 is false of the code: a create request against a listing whose
`is_available` is false is persisted, because the availability check lives
only in `BookingSerializer.validate`, which the create path never runs. -/
theorem create_unavailable_bug :
    unavailableListing.is_available = false ∧
    (BookingViewSet.create 2 unavailableListing 0 3 2 "").isCreated = true ∧
    BookingSerializer.validate unavailableListing 0 3 2
      = Except.error ValidationError.unavailable :=
  ⟨rfl, rfl, rfl⟩

/-- C6 is false of the code at this input: three reviews rated 5, 4 and 4
have exact arithmetic mean 13/3, but the code's float division returns the
nearest binary64 double, whose exact value is `4878899596318037 / 2^50`;
that differs from 13/3, so `average_rating` is not the exact mean. -/
theorem average_rating_float_counterexample :
    arithMean ((threeReviews.filter
        (fun r => r.listing == sampleListing.id)).map
        (fun r => (r.rating : ℚ))) = 13 / 3 ∧
    Listing.average_rating sampleListing threeReviews
      = 4878899596318037 / 1125899906842624 ∧
    Listing.average_rating sampleListing threeReviews
      ≠ arithMean ((threeReviews.filter
          (fun r => r.listing == sampleListing.id)).map
          (fun r => (r.rating : ℚ))) := by
  have hmean : arithMean ((threeReviews.filter
      (fun r => r.listing == sampleListing.id)).map
      (fun r => (r.rating : ℚ))) = 13 / 3 := by
    norm_num [arithMean, threeReviews, sampleListing]
  have havg : Listing.average_rating sampleListing threeReviews
      = mkRat 4878899596318037 1125899906842624 := by decide
  have hval : (mkRat 4878899596318037 1125899906842624 : ℚ)
      = 4878899596318037 / 1125899906842624 := by
    rw [Rat.mkRat_eq_divInt, Rat.divInt_eq_div]
    norm_num
  refine ⟨hmean, havg.trans hval, ?_⟩
  rw [hmean, havg, hval]
  norm_num

/-- C6 amended: with no attached reviews `average_rating` is 0 (a value, not
null, not undefined); with attached reviews it is the correctly rounded —
nearest, ties to even — binary64 quotient of the integer rating sum by the
review count, i.e. the double Python's division returns, whose exact
rational is `floatDivNat`; the quantity being rounded is exactly the
spec's arithmetic mean of the ratings. -/
theorem average_rating_rounded_spec (l : Listing) (reviews : List Review) :
    (reviews.filter (fun r => r.listing == l.id) ≠ [] →
      Listing.average_rating l reviews
        = floatDivNat (((reviews.filter (fun r => r.listing == l.id)).map
            Review.rating).sum)
            ((reviews.filter (fun r => r.listing == l.id)).length) ∧
      arithMean ((reviews.filter (fun r => r.listing == l.id)).map
          (fun r => (r.rating : ℚ)))
        = ((((reviews.filter (fun r => r.listing == l.id)).map
            Review.rating).sum : ℚ)
          / (((reviews.filter (fun r => r.listing == l.id)).length : ℚ)))) ∧
    (reviews.filter (fun r => r.listing == l.id) = [] →
      Listing.average_rating l reviews = 0) := by
  constructor
  · intro h
    constructor
    · unfold Listing.average_rating
      dsimp only
      rw [if_pos h]
    · unfold arithMean
      rw [List.length_map, Nat.cast_list_sum, List.map_map]
      rfl
  · intro h
    unfold Listing.average_rating
    dsimp only
    rw [if_neg (by simp [h])]

/-- Witness for C6's amended claim: the sample listing's two reviews
(ratings 5 and 4) have the dyadic mean 9/2, which the double represents
exactly, and a listing with no attached reviews averages to 0. -/
theorem average_rating_rounded_spec_witness :
    Listing.average_rating sampleListing demoReviews = mkRat 9 2 ∧
    Listing.average_rating unavailableListing demoReviews = 0 := by
  constructor
  · rw [((average_rating_rounded_spec sampleListing demoReviews).1
      (by decide)).1]
    decide
  · exact (average_rating_rounded_spec unavailableListing demoReviews).2 rfl

/-- C3 is false of the code at this input: the guest cancels a booking whose
status is `completed`, and the cancel action succeeds and changes the
status to `cancelled` — `completed` is not a terminal state under
`cancel`, which only rejects status `cancelled`. -/
theorem cancel_completed_counterexample :
    completedBooking.status = Status.completed ∧
    (BookingViewSet.cancel completedBooking sampleListing 2).newBooking.map
        Booking.status = some Status.cancelled :=
  ⟨rfl, rfl⟩

/-- C3 amended: `cancelled` is terminal — neither cancel nor confirm changes
a cancelled booking; `completed` is terminal under confirm only, for
cancel by the booking's guest moves a completed booking to `cancelled`. -/
theorem terminal_statuses_amended (b : Booking) (l : Listing) (a : Nat) :
    (b.status = Status.cancelled →
      (BookingViewSet.cancel b l a).newBooking = none ∧
      (BookingViewSet.confirm b l a).newBooking = none) ∧
    (b.status = Status.completed →
      (BookingViewSet.confirm b l a).newBooking = none) ∧
    (a = b.guest → b.status = Status.completed →
      (BookingViewSet.cancel b l a).newBooking.map Booking.status
        = some Status.cancelled) := by
  refine ⟨?_, ?_, ?_⟩
  · intro hs
    constructor
    · unfold BookingViewSet.cancel
      by_cases hg : b.guest ≠ a
      · rw [if_pos hg]; rfl
      · rw [if_neg hg, if_pos hs]; rfl
    · unfold BookingViewSet.confirm
      by_cases hh : l.host ≠ a
      · rw [if_pos hh]; rfl
      · rw [if_neg hh, if_pos (by simp [hs])]; rfl
  · intro hs
    unfold BookingViewSet.confirm
    by_cases hh : l.host ≠ a
    · rw [if_pos hh]; rfl
    · rw [if_neg hh, if_pos (by simp [hs])]; rfl
  · intro ha hs
    unfold BookingViewSet.cancel
    rw [if_neg (by simp [ha]), if_neg (by simp [hs])]
    simp [ActionResult.newBooking, Booking.save_status]

/-- Witness for C3's amended claim: the cancelled sample booking resists
both actions, and the completed one resists confirm by the host. -/
theorem terminal_statuses_amended_witness :
    (BookingViewSet.cancel cancelledBooking sampleListing 2).newBooking
      = none ∧
    (BookingViewSet.confirm cancelledBooking sampleListing 1).newBooking
      = none ∧
    (BookingViewSet.confirm completedBooking sampleListing 1).newBooking
      = none := by
  refine ⟨?_, ?_, ?_⟩
  · exact ((terminal_statuses_amended cancelledBooking sampleListing 2).1 rfl).1
  · exact ((terminal_statuses_amended cancelledBooking sampleListing 1).1 rfl).2
  · exact (terminal_statuses_amended completedBooking sampleListing 1).2.1 rfl

/-- C7: confirm succeeds — returning the booking with status `confirmed` —
exactly when the actor is the listing's host and the booking is `pending`;
any other actor gets a 403 regardless of status, and the host on a
non-pending booking gets a 400. -/
theorem confirm_spec (b : Booking) (l : Listing) (a : Nat) :
    ((BookingViewSet.confirm b l a).newBooking.map Booking.status
        = if a = l.host ∧ b.status = Status.pending
          then some Status.confirmed else none) ∧
    (a ≠ l.host →
      BookingViewSet.confirm b l a
        = ActionResult.forbidden "Only the host can confirm bookings.") ∧
    (a = l.host → b.status ≠ Status.pending →
      BookingViewSet.confirm b l a
        = ActionResult.badRequest "Only pending bookings can be confirmed.") := by
  refine ⟨?_, ?_, ?_⟩
  · unfold BookingViewSet.confirm
    by_cases hh : l.host ≠ a
    · rw [if_pos hh, if_neg (fun hc => hh hc.1.symm)]
      rfl
    · rw [not_not] at hh
      by_cases hs : b.status ≠ Status.pending
      · rw [if_neg (not_not_intro hh), if_pos hs,
          if_neg (fun hc => hs hc.2)]
        rfl
      · rw [not_not] at hs
        rw [if_neg (not_not_intro hh), if_neg (not_not_intro hs),
          if_pos ⟨hh.symm, hs⟩]
        simp [ActionResult.newBooking, Booking.save_status]
  · intro hna
    unfold BookingViewSet.confirm
    rw [if_pos (fun he => hna he.symm)]
  · intro ha hs
    unfold BookingViewSet.confirm
    rw [if_neg (not_not_intro ha.symm), if_pos hs]

/-- Witness for C7: the host confirms the pending sample booking; user 3 is
rejected with a 403; the host confirming the completed booking gets a
400. -/
theorem confirm_spec_witness :
    (BookingViewSet.confirm pendingBooking sampleListing 1).newBooking.map
        Booking.status = some Status.confirmed ∧
    BookingViewSet.confirm pendingBooking sampleListing 3
      = ActionResult.forbidden "Only the host can confirm bookings." ∧
    BookingViewSet.confirm completedBooking sampleListing 1
      = ActionResult.badRequest "Only pending bookings can be confirmed." := by
  refine ⟨?_, ?_, ?_⟩
  · have h := (confirm_spec pendingBooking sampleListing 1).1
    rw [h, if_pos ⟨rfl, rfl⟩]
  · exact (confirm_spec pendingBooking sampleListing 3).2.1 (by decide)
  · exact (confirm_spec completedBooking sampleListing 1).2.2 rfl (by decide)

/-- C8: cancel is rejected with a 403 for any actor other than the booking's
guest, rejected with a 400 when the status is already `cancelled`, and
otherwise — actor is the guest, status not `cancelled` — succeeds and sets
the status to `cancelled`. -/
theorem cancel_spec (b : Booking) (l : Listing) (a : Nat) :
    ((BookingViewSet.cancel b l a).newBooking.map Booking.status
        = if a = b.guest ∧ b.status ≠ Status.cancelled
          then some Status.cancelled else none) ∧
    (a ≠ b.guest →
      BookingViewSet.cancel b l a
        = ActionResult.forbidden "You can only cancel your own bookings.") ∧
    (a = b.guest → b.status = Status.cancelled →
      BookingViewSet.cancel b l a
        = ActionResult.badRequest "Booking is already cancelled.") := by
  refine ⟨?_, ?_, ?_⟩
  · unfold BookingViewSet.cancel
    by_cases hg : b.guest ≠ a
    · rw [if_pos hg, if_neg (fun hc => hg hc.1.symm)]
      rfl
    · rw [not_not] at hg
      by_cases hs : b.status = Status.cancelled
      · rw [if_neg (not_not_intro hg), if_pos hs,
          if_neg (fun hc => hc.2 hs)]
        rfl
      · rw [if_neg (not_not_intro hg), if_neg hs,
          if_pos ⟨hg.symm, hs⟩]
        simp [ActionResult.newBooking, Booking.save_status]
  · intro hna
    unfold BookingViewSet.cancel
    rw [if_pos (fun he => hna he.symm)]
  · intro ha hs
    unfold BookingViewSet.cancel
    rw [if_neg (not_not_intro ha.symm), if_pos hs]

/-- Witness for C8: the guest cancels the pending sample booking; user 3 is
rejected with a 403; the guest cancelling an already-cancelled booking gets
a 400. -/
theorem cancel_spec_witness :
    (BookingViewSet.cancel pendingBooking sampleListing 2).newBooking.map
        Booking.status = some Status.cancelled ∧
    BookingViewSet.cancel pendingBooking sampleListing 3
      = ActionResult.forbidden "You can only cancel your own bookings." ∧
    BookingViewSet.cancel cancelledBooking sampleListing 2
      = ActionResult.badRequest "Booking is already cancelled." := by
  refine ⟨?_, ?_, ?_⟩
  · have h := (cancel_spec pendingBooking sampleListing 2).1
    rw [h, if_pos ⟨rfl, by decide⟩]
  · exact (cancel_spec pendingBooking sampleListing 3).2.1 (by decide)
  · exact (cancel_spec cancelledBooking sampleListing 2).2.2 rfl rfl

/-- C9: whatever the query parameters, every booking the collection query
returns has the requesting user as guest or as host of its listing; and
with no parameters the result is exactly that set. -/
theorem get_queryset_spec (bookings : List Booking) (listings : List Listing)
    (user : Nat) (statusParam upcomingParam : Option String) (today : Int) :
    (∀ b, b ∈ BookingViewSet.get_queryset bookings listings user statusParam
        upcomingParam today →
      (b.guest = user ∨ listingHost listings b.listing = some user)) ∧
    (∀ b, b ∈ BookingViewSet.get_queryset bookings listings user none none
        today ↔
      (b ∈ bookings ∧
        (b.guest = user ∨ listingHost listings b.listing = some user))) := by
  constructor
  · intro b hb
    unfold BookingViewSet.get_queryset at hb
    have hb2 := mem_applyStatusFilter (mem_applyUpcomingFilter hb)
    have hcond := (List.mem_filter.mp hb2).2
    simp only [Bool.or_eq_true] at hcond
    rcases hcond with h | h
    · exact Or.inl (by simpa using h)
    · exact Or.inr (by simpa using h)
  · intro b
    unfold BookingViewSet.get_queryset applyStatusFilter applyUpcomingFilter
    rw [List.mem_filter]
    constructor
    · rintro ⟨hmem, hcond⟩
      refine ⟨hmem, ?_⟩
      simp only [Bool.or_eq_true] at hcond
      rcases hcond with h | h
      · exact Or.inl (by simpa using h)
      · exact Or.inr (by simpa using h)
    · rintro ⟨hmem, hcond⟩
      refine ⟨hmem, ?_⟩
      simp only [Bool.or_eq_true]
      rcases hcond with h | h
      · exact Or.inl (by simpa using h)
      · exact Or.inr (by simpa using h)

/-- Witness for C9: user 2 sees their own booking of the sample listing and
does not see user 3's booking of an unrelated listing. -/
theorem get_queryset_spec_witness :
    pendingBooking ∈ BookingViewSet.get_queryset demoBookings demoListings 2
      none none 0 ∧
    foreignBooking ∉ BookingViewSet.get_queryset demoBookings demoListings 2
      none none 0 := by
  constructor
  · exact ((get_queryset_spec demoBookings demoListings 2 none none 0).2
      pendingBooking).mpr ⟨by decide, Or.inl rfl⟩
  · intro hmem
    rcases (get_queryset_spec demoBookings demoListings 2 none none 0).1
      foreignBooking hmem with h | h
    · exact absurd h (by decide)
    · exact absurd h (by decide)

/-- C10: a successful cancel or confirm saves the booking, so when the dates
span a positive number of nights the returned booking's `total_price` is
the listing's CURRENT `price_per_night` times the night count — the action
is not a pure status change. -/
theorem actions_recompute_price (b : Booking) (l : Listing) (a : Nat)
    (ci co : Int) (h1 : b.check_in = some ci) (h2 : b.check_out = some co)
    (hpos : 0 < co - ci) :
    (∀ b', BookingViewSet.cancel b l a = ActionResult.ok b' →
      b'.total_price = some (l.price_per_night * ((co - ci : Int) : ℚ))) ∧
    (∀ b', BookingViewSet.confirm b l a = ActionResult.ok b' →
      b'.total_price = some (l.price_per_night * ((co - ci : Int) : ℚ))) := by
  constructor
  · intro b' hok
    rw [cancel_ok_iff] at hok
    obtain ⟨-, -, rfl⟩ := hok
    exact Booking.save_total_price _ l ci co h1 h2 hpos
  · intro b' hok
    rw [confirm_ok_iff] at hok
    obtain ⟨-, -, rfl⟩ := hok
    exact Booking.save_total_price _ l ci co h1 h2 hpos

/-- Witness for C10: a booking priced 300 at the old 100-per-night rate is
cancelled by its guest after the host repriced the listing to 150 per
night; the returned booking is repriced to 450. -/
theorem actions_recompute_price_witness :
    stalePricedBooking.total_price = some 300 ∧
    (BookingViewSet.cancel stalePricedBooking repricedListing 2).newBooking.map
        Booking.total_price = some (some 450) := by
  refine ⟨rfl, ?_⟩
  have h := (actions_recompute_price stalePricedBooking repricedListing 2 0 3
    rfl rfl (by norm_num)).1
  have hok : BookingViewSet.cancel stalePricedBooking repricedListing 2
      = ActionResult.ok (Booking.save
          { stalePricedBooking with status := Status.cancelled }
          (some repricedListing)) := rfl
  have hp := h _ hok
  rw [hok]
  simp only [ActionResult.newBooking, Option.map_some']
  rw [hp]
  norm_num [repricedListing, sampleListing]

end AlxTravel
